import Mathlib

/-!
Verification of the Hope service-directory core against its source.

The development shallowly embeds the two components with algorithmic
content:

* the scraper-side entity-resolution pipeline
  (`scraper/scraper/processors/deduplication.py` and the per-record loop
  of `scraper/scraper/main.py`), modelled over exact rationals; the
  `difflib.SequenceMatcher(...).ratio()` similarity is an external
  library call and is therefore a parameter `sim` of the model, with the
  thresholds and all control flow taken from the source;

* the backend geospatial query engine
  (`backend/app/services/geospatial_service.py` and the in-bounds route
  of `backend/app/routers/public.py`), with float arithmetic idealised
  over the reals and `math`-library calls mapped to their Mathlib
  counterparts.

Python truthiness tests (`if raw_data.external_id and ...`,
`x or y` field merges, `if raw_data.borough:`) are embedded explicitly:
`None`, the empty string, the empty list and `False` are falsy;
`datetime.time` values are always truthy on Python >= 3.5.
-/

namespace Hope

/-! ## Scraper-side data model (`scraper/scraper/models.py`,
`backend/app/models/service_location.py`) -/

/-- `RawServiceData`: the normalized record every scraper emits
(`scraper/scraper/models.py`).  `name`, `external_id` and `data_source`
are required strings; the rest of the fields used by the deduplicator
are optional. -/
structure RawServiceData where
  name : String
  organization_name : Option String := none
  description : Option String := none
  street_address : Option String := none
  city : String := "New York"
  state : String := "NY"
  zip_code : Option String := none
  borough : Option String := none
  phone : Option String := none
  website : Option String := none
  wheelchair_accessible : Option Bool := none
  languages_spoken : Option (List String) := none
  external_id : String
  data_source : String
deriving DecidableEq, Repr

/-- A stored `ServiceLocation` row as the scraper-side code sees it:
the columns read or written by `Deduplicator.find_match` and
`Deduplicator.create_or_update`.  Timestamps are abstracted to `ℕ`;
`deleted_at = none` means the row is not soft-deleted. -/
structure StoredLocation where
  name : String
  organization_name : Option String := none
  description : Option String := none
  street_address : Option String := none
  city : Option String := none
  state : Option String := none
  zip_code : Option String := none
  borough : Option String := none
  phone : Option String := none
  website : Option String := none
  wheelchair_accessible : Option Bool := none
  languages_spoken : Option (List String) := none
  latitude : Option ℚ := none
  longitude : Option ℚ := none
  data_source : Option String := none
  external_id : Option String := none
  verified : Bool := false
  deleted_at : Option ℕ := none
deriving DecidableEq, Repr

/-! ## `Deduplicator.find_match` (deduplication.py lines 26-85) -/

/-- Tier 1 guard and query: `if raw_data.external_id and raw_data.data_source`
followed by the exact-equality filter on both columns; `.first()` is the
first matching row in store order.  No `deleted_at` condition appears in
the source query. -/
def tier1_idx (raw : RawServiceData) (store : List StoredLocation) : Option ℕ :=
  if raw.external_id ≠ "" ∧ raw.data_source ≠ "" then
    store.findIdx? (fun loc =>
      loc.external_id == some raw.external_id && loc.data_source == some raw.data_source)
  else none

/-- `SequenceMatcher(None, raw.name.lower(), candidate.name.lower()).ratio()`,
with the external ratio function as parameter `sim`. -/
def name_similarity (sim : String → String → ℚ) (raw : RawServiceData)
    (cand : StoredLocation) : ℚ :=
  sim raw.name.toLower cand.name.toLower

/-- `address_similarity = 0.0` unless both street addresses are truthy,
in which case it is the ratio of the lowercased addresses
(deduplication.py lines 70-77). -/
def address_similarity (sim : String → String → ℚ) (raw : RawServiceData)
    (cand : StoredLocation) : ℚ :=
  match raw.street_address, cand.street_address with
  | some a, some b => if a ≠ "" ∧ b ≠ "" then sim a.toLower b.toLower else 0
  | _, _ => 0

/-- Tier 2: guarded by `if raw_data.borough:`; candidates are the stored
rows with the same borough and `deleted_at IS NULL`, scanned in store
order for the first one with `name_similarity > 0.85 and
address_similarity > 0.8`. -/
def tier2_idx (sim : String → String → ℚ) (raw : RawServiceData)
    (store : List StoredLocation) : Option ℕ :=
  match raw.borough with
  | some b =>
    if b ≠ "" then
      store.findIdx? (fun loc =>
        loc.borough == some b && loc.deleted_at == none &&
        decide ((0.85 : ℚ) < name_similarity sim raw loc) &&
        decide ((0.8 : ℚ) < address_similarity sim raw loc))
    else none
  | none => none

/-- `Deduplicator.find_match`, returning the index of the matched row:
tier 1 short-circuits tier 2. -/
def find_match_idx (sim : String → String → ℚ) (raw : RawServiceData)
    (store : List StoredLocation) : Option ℕ :=
  match tier1_idx raw store with
  | some i => some i
  | none => tier2_idx sim raw store

/-- `Deduplicator.find_match` as the matched row itself. -/
def find_match (sim : String → String → ℚ) (raw : RawServiceData)
    (store : List StoredLocation) : Option StoredLocation :=
  (find_match_idx sim raw store).bind (fun i => store[i]?)

/-! ## `Deduplicator.create_or_update` (deduplication.py lines 87-152) -/

/-- Python `new or old` for optional strings: the empty string and
`None` are falsy. -/
def pyOrStr (new old : Option String) : Option String :=
  match new with
  | some s => if s = "" then old else some s
  | none => old

/-- Python `new or old` for optional booleans: `False` and `None` are
falsy. -/
def pyOrBool (new old : Option Bool) : Option Bool :=
  match new with
  | some true => some true
  | _ => old

/-- Python `new or old` for optional lists: the empty list and `None`
are falsy. -/
def pyOrList (new old : Option (List String)) : Option (List String) :=
  match new with
  | some l => if l = [] then old else some l
  | none => old

/-- The update branch of `create_or_update`: `name` and the coordinates
are assigned unconditionally, the other descriptive fields with
`raw_data.f or existing.f`.  All remaining columns (addresses, borough,
identity keys, `verified`, `deleted_at`) are untouched. -/
def applyUpdate (raw : RawServiceData) (lat lon : ℚ) (loc : StoredLocation) :
    StoredLocation :=
  { loc with
    name := raw.name
    description := pyOrStr raw.description loc.description
    organization_name := pyOrStr raw.organization_name loc.organization_name
    phone := pyOrStr raw.phone loc.phone
    website := pyOrStr raw.website loc.website
    wheelchair_accessible := pyOrBool raw.wheelchair_accessible loc.wheelchair_accessible
    languages_spoken := pyOrList raw.languages_spoken loc.languages_spoken
    latitude := some lat
    longitude := some lon }

/-- The create branch of `create_or_update`: all fields from the raw
record, `verified=False`, not deleted. -/
def newLocation (raw : RawServiceData) (lat lon : ℚ) : StoredLocation :=
  { name := raw.name
    description := raw.description
    organization_name := raw.organization_name
    street_address := raw.street_address
    city := some raw.city
    state := some raw.state
    zip_code := raw.zip_code
    borough := raw.borough
    phone := raw.phone
    website := raw.website
    wheelchair_accessible := raw.wheelchair_accessible
    languages_spoken := raw.languages_spoken
    latitude := some lat
    longitude := some lon
    data_source := some raw.data_source
    external_id := some raw.external_id
    verified := false
    deleted_at := none }

/-- Replace the element at index `i` (in-place ORM mutation). -/
def updateAt (store : List StoredLocation) (i : ℕ)
    (f : StoredLocation → StoredLocation) : List StoredLocation :=
  match store[i]? with
  | some loc => store.set i (f loc)
  | none => store

/-- `Deduplicator.create_or_update`: `None` coordinates raise
(`ValueError`, modelled as `none`); otherwise update the matched row in
place or append a fresh row. -/
def create_or_update (sim : String → String → ℚ) (raw : RawServiceData)
    (coords : Option (ℚ × ℚ)) (store : List StoredLocation) :
    Option (List StoredLocation) :=
  match coords with
  | none => none
  | some (lat, lon) =>
    match find_match_idx sim raw store with
    | some i => some (updateAt store i (applyUpdate raw lat lon))
    | none => some (store ++ [newLocation raw lat lon])

/-! ## The per-record ingestion loop (`scraper/scraper/main.py` lines 64-112).
Geocoding is an external HTTP call; the deterministic outcome of
`geocoder.geocode_with_fallback` for a record is the parameter `geo`.
A record whose geocode fails is skipped; otherwise its location is
resolved and committed before the next record. -/

/-- One iteration of the ingestion loop for record `r`. -/
def processRecord (sim : String → String → ℚ) (geo : RawServiceData → Option (ℚ × ℚ))
    (st : List StoredLocation) (r : RawServiceData) : List StoredLocation :=
  match geo r with
  | none => st
  | some coords => (create_or_update sim r (some coords) st).getD st

/-- The ingestion pipeline over one source stream. -/
def runPipeline (sim : String → String → ℚ) (geo : RawServiceData → Option (ℚ × ℚ))
    (stream : List RawServiceData) (st : List StoredLocation) : List StoredLocation :=
  stream.foldl (processRecord sim geo) st

/-! ## Open-now evaluation
(`GeospatialService._calculate_is_open_now`, geospatial_service.py
lines 50-82).  Times of day are minutes since midnight; `weekday` is
Python's `datetime.weekday()` convention (0 = Monday .. 6 = Sunday). -/

/-- One `operating_hours` row as the evaluator reads it. -/
structure HoursRow where
  day_of_week : ℕ
  open_time : Option ℕ := none
  close_time : Option ℕ := none
  is_24_hours : Bool := false
  is_closed : Bool := false
deriving DecidableEq, Repr

/-- The `for hours in today_hours` loop: closed rows are skipped first,
then 24-hour rows answer `True`, then rows with both times present test
`open_time <= now <= close_time` inclusively. -/
def checkTodayHours (t : ℕ) : List HoursRow → Bool
  | [] => false
  | h :: rest =>
    if h.is_closed then checkTodayHours t rest
    else if h.is_24_hours then true
    else
      match h.open_time, h.close_time with
      | some o, some c => if o ≤ t ∧ t ≤ c then true else checkTodayHours t rest
      | _, _ => checkTodayHours t rest

/-- `_calculate_is_open_now`: empty list is closed; the current day is
`(weekday + 1) % 7` (0 = Sunday); entries are filtered to that day and
scanned by `checkTodayHours`. -/
def calculate_is_open_now (hours : List HoursRow) (weekday t : ℕ) : Bool :=
  if hours.isEmpty then false
  else
    let current_day := (weekday + 1) % 7
    let today_hours := hours.filter (fun h => h.day_of_week == current_day)
    if today_hours.isEmpty then false
    else checkTodayHours t today_hours

/-- The open-now predicate exactly as the specification sentence words
it: some same-day entry "either has is24Hours true, or has isClosed
false and openTime <= t <= closeTime".  Written from the spec, for
comparison against `calculate_is_open_now`. -/
def isOpenNowClaimed (hours : List HoursRow) (weekday t : ℕ) : Bool :=
  let current_day := (weekday + 1) % 7
  let today_hours := hours.filter (fun h => h.day_of_week == current_day)
  !today_hours.isEmpty &&
    today_hours.any (fun h =>
      h.is_24_hours ||
        (!h.is_closed &&
          match h.open_time, h.close_time with
          | some o, some c => decide (o ≤ t ∧ t ≤ c)
          | _, _ => false))

/-! ## Geospatial query engine
(`GeospatialService`, geospatial_service.py).  Float arithmetic is
idealised over `ℝ`; `math.radians`, `math.sin`, `math.cos`,
`math.sqrt`, `math.atan2` map to the Mathlib real functions. -/

/-- `math.radians`: degrees to radians. -/
noncomputable def radians (d : ℝ) : ℝ := d * (Real.pi / 180)

/-- `math.atan2 y x` over the reals (all four quadrants;
`atan2 0 0 = 0` as in CPython). -/
noncomputable def atan2 (y x : ℝ) : ℝ :=
  if 0 < x then Real.arctan (y / x)
  else if x < 0 then
    (if 0 ≤ y then Real.arctan (y / x) + Real.pi else Real.arctan (y / x) - Real.pi)
  else if 0 < y then Real.pi / 2
  else if y < 0 then -(Real.pi / 2)
  else 0

/-- `GeospatialService.haversine_distance` (lines 31-48): great-circle
distance in meters, `R = 6371000`. -/
noncomputable def haversine_distance (lat1 lon1 lat2 lon2 : ℝ) : ℝ :=
  let R : ℝ := 6371000
  let phi1 := radians lat1
  let phi2 := radians lat2
  let delta_phi := radians (lat2 - lat1)
  let delta_lambda := radians (lon2 - lon1)
  let a := Real.sin (delta_phi / 2) ^ 2 +
    Real.cos phi1 * Real.cos phi2 * Real.sin (delta_lambda / 2) ^ 2
  let c := 2 * atan2 (Real.sqrt a) (Real.sqrt (1 - a))
  R * c

/-- `lat_offset = radius_km / 111.0` (find_nearby, line 129). -/
noncomputable def lat_offset (radius_km : ℝ) : ℝ := radius_km / 111

/-- `lon_offset = radius_km / (111.0 * cos(radians(lat)))`
(find_nearby, line 131). -/
noncomputable def lon_offset (radius_km lat : ℝ) : ℝ :=
  radius_km / (111 * Real.cos (radians lat))

/-- A `ServiceLocation` row as `find_nearby` reads it, with its
eager-loaded service-type slugs and operating hours. -/
structure GeoLocation where
  name : String
  latitude : Option ℝ := none
  longitude : Option ℝ := none
  service_slugs : List String := []
  operating_hours : List HoursRow := []
  deleted_at : Option ℕ := none

/-- The SQL `WHERE` of `find_nearby`: not soft-deleted and both
coordinates inside the bounding box (a `NULL` coordinate fails the SQL
comparison). -/
noncomputable def inNearbyBox (lat lon radius_km : ℝ) (l : GeoLocation) : Bool :=
  l.deleted_at == none &&
    (match l.latitude, l.longitude with
     | some la, some lo =>
       decide (lat - lat_offset radius_km ≤ la) && decide (la ≤ lat + lat_offset radius_km) &&
       decide (lon - lon_offset radius_km lat ≤ lo) && decide (lo ≤ lon + lon_offset radius_km lat)
     | _, _ => false)

/-- Sort key of `locations_with_distance.sort(key=lambda x: x[1])`. -/
def distLe (p q : GeoLocation × ℝ) : Prop := p.2 ≤ q.2

noncomputable instance : DecidableRel distLe :=
  fun p q => Real.decidableLE p.2 q.2

instance : IsTotal (GeoLocation × ℝ) distLe := ⟨fun p q => le_total p.2 q.2⟩

instance : IsTrans (GeoLocation × ℝ) distLe := ⟨fun _ _ _ => le_trans⟩

/-- `GeospatialService.find_nearby` (lines 96-238) over an in-memory
store: clamp the limit to 500, filter by the bounding box (and by
service-type slug when the filter list is non-empty), compute the exact
haversine distance and discard candidates beyond `radius_km * 1000`
meters, sort ascending by distance (Python's sort is stable), truncate
to the clamped limit, and finally — while building responses — drop
closed locations when `open_now` is set.  `weekday`/`t` stand for
`datetime.now()`. -/
noncomputable def find_nearby (lat lon radius_km : ℝ) (service_types : List String)
    (store : List GeoLocation) (open_now : Bool) (limit : ℕ) (weekday t : ℕ) :
    List (GeoLocation × ℝ) :=
  let safe_limit := min limit 500
  let boxed := store.filter (inNearbyBox lat lon radius_km)
  let filtered :=
    if service_types.isEmpty then boxed
    else boxed.filter (fun l => l.service_slugs.any (fun s => service_types.contains s))
  let with_distance := filtered.filterMap (fun l =>
    match l.latitude, l.longitude with
    | some la, some lo =>
      let d := haversine_distance lat lon la lo
      if d ≤ radius_km * 1000 then some (l, d) else none
    | _, _ => none)
  let sorted_list := List.insertionSort distLe with_distance
  let truncated := sorted_list.take safe_limit
  if open_now then
    truncated.filter (fun p => calculate_is_open_now p.1.operating_hours weekday t)
  else truncated

/-! ## The in-bounds route (`backend/app/routers/public.py` lines
119-180).  The handler validates the box, then forwards to
`GeospatialService.find_in_bounds`; the body of that forwarded call is
abstracted as a parameter so that the validation order is the only
thing the model fixes. -/

/-- The bounds validation of `get_services_in_bounds` (lines 160-164):
an inverted box raises `HTTPException(400, ...)` before any query
runs. -/
def get_services_in_bounds_handler {α : Type}
    (body : ℚ → ℚ → ℚ → ℚ → Except (ℕ × String) (List α))
    (min_lat max_lat min_lng max_lng : ℚ) : Except (ℕ × String) (List α) :=
  if min_lat ≥ max_lat then .error (400, "min_lat must be less than max_lat")
  else if min_lng ≥ max_lng then .error (400, "min_lng must be less than max_lng")
  else body min_lat max_lat min_lng max_lng

/-- The keyword parameters accepted by
`GeospatialService.find_in_bounds` (geospatial_service.py lines
240-252), in signature order. -/
def find_in_bounds_params : List String :=
  ["min_lat", "max_lat", "min_lng", "max_lng", "center_lat", "center_lng",
   "service_types", "exclude_service_types", "open_now", "limit"]

/-- The keyword arguments `get_services_in_bounds` passes to
`find_in_bounds` (public.py lines 168-180). -/
def router_in_bounds_kwargs : List String :=
  ["min_lat", "max_lat", "min_lng", "max_lng", "center_lat", "center_lng",
   "service_types", "exclude_service_types", "open_now", "open_today", "limit"]

/-- A Python call binds without a `TypeError` only when every keyword
argument names a declared parameter. -/
def kwargs_accepted (params call : List String) : Bool :=
  call.all (fun k => params.contains k)

/-! ## Concrete instances used by witnesses and counterexamples -/

/-- A degenerate similarity function (any constant works where the
similarity is not consulted). -/
def simZero : String → String → ℚ := fun _ _ => 0

/-- A maximal similarity function: even it cannot rescue matching when
the borough gate is closed. -/
def simOne : String → String → ℚ := fun _ _ => 1

/-- A similarity function pinned at the boundary value 0.85: the name
ratio then sits exactly on the 0.85 threshold (and the address ratio,
also 0.85, clears its 0.8 threshold). -/
def simBoundary : String → String → ℚ := fun _ _ => 0.85

/-- A raw record with no identity key (empty `external_id`) and no
borough. -/
def rawNoKey : RawServiceData :=
  { name := "Mobile Pantry", external_id := "", data_source := "src" }

/-- A raw record with a full identity key and no borough. -/
def rawKeyed : RawServiceData :=
  { name := "Pantry", external_id := "e1", data_source := "src" }

/-- A stored row with the same identity key as `rawKeyed` but
soft-deleted. -/
def softDeletedLoc : StoredLocation :=
  { name := "Pantry Old", external_id := some "e1", data_source := some "src",
    deleted_at := some 5 }

/-- A raw record whose only tier-2 hope is the boundary similarity. -/
def rawBoundary : RawServiceData :=
  { name := "Pantry One", street_address := some "123 Main St",
    borough := some "BK", external_id := "", data_source := "src" }

/-- A live stored candidate in the same borough as `rawBoundary`. -/
def candBoundary : StoredLocation :=
  { name := "Pantry One Inc", street_address := some "123 Main Street",
    borough := some "BK", deleted_at := none }

/-- A raw record that reports `wheelchair_accessible = False`. -/
def rawFalsy : RawServiceData :=
  { name := "Shelter A", external_id := "e2", data_source := "src",
    wheelchair_accessible := some false }

/-- A stored row, matched by `rawFalsy` via its identity key, currently
recorded as wheelchair accessible. -/
def storedTrue : StoredLocation :=
  { name := "Shelter A old", external_id := some "e2", data_source := some "src",
    wheelchair_accessible := some true }

/-- A geocoder that always resolves. -/
def geoConst : RawServiceData → Option (ℚ × ℚ) := fun _ => some (1, 2)

/-- A schedule row marked simultaneously closed and 24-hour. -/
def closedAllDayRow : HoursRow :=
  { day_of_week := 0, is_24_hours := true, is_closed := true }

/-- A closed location at the query center (no schedule ⇒ never open). -/
noncomputable def locA : GeoLocation :=
  { name := "A", latitude := some 0, longitude := some 0 }

/-- An always-open location at the north pole (24-hour Sunday entry). -/
noncomputable def locB : GeoLocation :=
  { name := "B", latitude := some 90, longitude := some 0,
    operating_hours := [{ day_of_week := 0, is_24_hours := true }] }

/-- Some stored row carries the raw record's `(external_id, data_source)`
identity pair (soft-deleted rows included, as in the tier-1 query). -/
def hasIdMatch (raw : RawServiceData) (store : List StoredLocation) : Prop :=
  ∃ loc ∈ store, loc.external_id = some raw.external_id ∧
    loc.data_source = some raw.data_source

end Hope

namespace Hope

/-! # Theorems -/

/-! ## Generic helper lemmas -/

theorem updateAt_length (st : List StoredLocation) (i : ℕ)
    (f : StoredLocation → StoredLocation) : (updateAt st i f).length = st.length := by
  unfold updateAt
  cases st[i]? <;> simp

/-! ## C2: open-now evaluation -/

theorem checkTodayHours_eq_true (t : ℕ) (l : List HoursRow) :
    checkTodayHours t l = true ↔
      ∃ h ∈ l, h.is_closed = false ∧
        (h.is_24_hours = true ∨
          ∃ o c, h.open_time = some o ∧ h.close_time = some c ∧ o ≤ t ∧ t ≤ c) := by
  induction l with
  | nil => simp [checkTodayHours]
  | cons h rest ih =>
    simp only [checkTodayHours, List.exists_mem_cons_iff]
    by_cases hc : h.is_closed
    · simp [hc, ih]
    · by_cases h24 : h.is_24_hours
      · simp [hc, h24]
      · cases ho : h.open_time with
        | none => simp [hc, h24, ho, ih]
        | some o =>
          cases hcl : h.close_time with
          | none => simp [hc, h24, ho, hcl, ih]
          | some c =>
            by_cases hw : o ≤ t ∧ t ≤ c
            · simp [hc, h24, ho, hcl, hw]
            · simp [hc, h24, ho, hcl, hw, ih]

/-- C2 (amended): `_calculate_is_open_now` is true exactly when some
schedule entry for the timestamp's day (0=Sunday convention, i.e. day
`(weekday + 1) % 7` for Python's Monday-based `weekday`) has `isClosed`
false and either `is24Hours` true or both times present with
`openTime <= t <= closeTime`, both endpoints included.  In particular an
entry with `isClosed` and `is24Hours` both set counts as closed, and a
day with no entries yields false. -/
theorem is_open_now_characterization (hours : List HoursRow) (weekday t : ℕ) :
    calculate_is_open_now hours weekday t = true ↔
      ∃ h ∈ hours, h.day_of_week = (weekday + 1) % 7 ∧ h.is_closed = false ∧
        (h.is_24_hours = true ∨
          ∃ o c, h.open_time = some o ∧ h.close_time = some c ∧ o ≤ t ∧ t ≤ c) := by
  unfold calculate_is_open_now
  by_cases he : hours.isEmpty
  · rw [List.isEmpty_iff] at he
    subst he
    simp
  · simp only [he, Bool.false_eq_true, if_false]
    by_cases hf : (hours.filter (fun h => h.day_of_week == (weekday + 1) % 7)).isEmpty
    · have hf' := hf
      rw [List.isEmpty_iff, List.filter_eq_nil_iff] at hf'
      rw [if_pos hf]
      simp only [Bool.false_eq_true, false_iff]
      rintro ⟨h, hmem, hday, -⟩
      have := hf' h hmem
      simp [hday] at this
    · rw [if_neg hf, checkTodayHours_eq_true]
      constructor
      · rintro ⟨h, hmem, hrest⟩
        rw [List.mem_filter] at hmem
        exact ⟨h, hmem.1, by simpa using hmem.2, hrest⟩
      · rintro ⟨h, hmem, hday, hrest⟩
        exact ⟨h, List.mem_filter.mpr ⟨hmem, by simp [hday]⟩, hrest⟩

/-- C2 (counterexample): a Sunday entry with `isClosed = true` and
`is24Hours = true`; the claimed formula calls this open (the `is24Hours`
disjunct ignores `isClosed`), but the code skips closed entries first
and answers false. -/
theorem is_open_now_claim_counterexample :
    calculate_is_open_now [closedAllDayRow] 6 600 = false ∧
    isOpenNowClaimed [closedAllDayRow] 6 600 = true := by
  constructor <;> rfl

/-! ## C3: fuzzy-match thresholds -/

/-- C3: when tier 1 finds nothing, `find_match` returns a candidate only
if it is non-deleted, shares the raw record's borough, and strictly
exceeds both similarity thresholds (`> 0.85` on names and `> 0.8` on
street addresses); and if no stored candidate clears both strict
thresholds, the result is `none` — so similarity exactly 0.85 / 0.8 is
never a match. -/
theorem fuzzy_match_strict_thresholds (sim : String → String → ℚ)
    (raw : RawServiceData) (store : List StoredLocation)
    (h1 : tier1_idx raw store = none) :
    (∀ loc, find_match sim raw store = some loc →
      loc.deleted_at = none ∧ loc.borough = raw.borough ∧
      (0.85 : ℚ) < name_similarity sim raw loc ∧
      (0.8 : ℚ) < address_similarity sim raw loc)
    ∧ ((∀ loc ∈ store,
          ¬((0.85 : ℚ) < name_similarity sim raw loc ∧
            (0.8 : ℚ) < address_similarity sim raw loc)) →
        find_match sim raw store = none) := by
  have hmain : find_match_idx sim raw store = tier2_idx sim raw store := by
    unfold find_match_idx
    rw [h1]
  unfold find_match
  rw [hmain]
  unfold tier2_idx
  cases hb : raw.borough with
  | none => simp
  | some b =>
    dsimp only
    by_cases hbe : b ≠ ""
    · rw [if_pos hbe]
      constructor
      · intro loc hloc
        rw [Option.bind_eq_some] at hloc
        obtain ⟨i, hidx, hget⟩ := hloc
        have hp := List.findIdx?_of_eq_some hidx
        rw [hget] at hp
        simp only [Bool.and_eq_true, beq_iff_eq, decide_eq_true_eq] at hp
        exact ⟨hp.1.1.2, hp.1.1.1, hp.1.2, hp.2⟩
      · intro hno
        have hnone : store.findIdx? (fun loc =>
            loc.borough == some b && loc.deleted_at == none &&
            decide ((0.85 : ℚ) < name_similarity sim raw loc) &&
            decide ((0.8 : ℚ) < address_similarity sim raw loc)) = none := by
          rw [List.findIdx?_eq_none_iff]
          intro x hx
          by_contra hcon
          simp only [Bool.not_eq_false, Bool.and_eq_true, beq_iff_eq,
            decide_eq_true_eq] at hcon
          exact hno x hx ⟨hcon.1.2, hcon.2⟩
        rw [hnone, Option.none_bind]
    · rw [if_neg hbe]
      simp

/-- C3 (witness): with the similarity function pinned at the boundary
value (name ratio exactly 0.85, address ratio 0.85 > 0.8) and a live
same-borough candidate, `find_match` still returns `none`: the name
threshold is strict. -/
theorem fuzzy_match_strict_thresholds_witness :
    tier1_idx rawBoundary [candBoundary] = none ∧
    find_match simBoundary rawBoundary [candBoundary] = none :=
  ⟨rfl,
    (fuzzy_match_strict_thresholds simBoundary rawBoundary [candBoundary] rfl).2
      (by
        intro loc _
        rintro ⟨hname, -⟩
        have hval : name_similarity simBoundary rawBoundary loc = 0.85 := rfl
        rw [hval] at hname
        exact absurd hname (by norm_num))⟩

/-! ## C10: tier 1 ignores soft deletion -/

/-- C10: with both identity fields non-empty, whenever any stored row —
soft-deleted or not — carries the same `(external_id, data_source)`
pair, `find_match` returns such a row (the tier-1 query has no
`deleted_at` filter), and `create_or_update` consequently updates in
place, adding no new row. -/
theorem tier1_ignores_soft_delete (sim : String → String → ℚ)
    (raw : RawServiceData) (store : List StoredLocation)
    (he : raw.external_id ≠ "") (hd : raw.data_source ≠ "")
    (hex : ∃ loc ∈ store, loc.external_id = some raw.external_id ∧
      loc.data_source = some raw.data_source) :
    (∃ loc, find_match sim raw store = some loc ∧
      loc.external_id = some raw.external_id ∧ loc.data_source = some raw.data_source)
    ∧ ∀ la lo : ℚ, ∃ st', create_or_update sim raw (some (la, lo)) store = some st' ∧
        st'.length = store.length := by
  obtain ⟨w, hw, hw1, hw2⟩ := hex
  have hexb : ∃ x, x ∈ store ∧ (x.external_id == some raw.external_id &&
      x.data_source == some raw.data_source) = true :=
    ⟨w, hw, by simp [hw1, hw2]⟩
  have hfind := List.findIdx?_eq_some_of_exists hexb
  have hidx : find_match_idx sim raw store =
      some (store.findIdx (fun loc =>
        loc.external_id == some raw.external_id && loc.data_source == some raw.data_source)) := by
    unfold find_match_idx tier1_idx
    rw [if_pos ⟨he, hd⟩, hfind]
  have hp := List.findIdx?_of_eq_some hfind
  constructor
  · cases hget : store[store.findIdx (fun loc =>
        loc.external_id == some raw.external_id && loc.data_source == some raw.data_source)]? with
    | none => rw [hget] at hp; simp at hp
    | some loc =>
      rw [hget] at hp
      simp only [Bool.and_eq_true, beq_iff_eq] at hp
      exact ⟨loc, by unfold find_match; rw [hidx, Option.some_bind, hget], hp.1, hp.2⟩
  · intro la lo
    unfold create_or_update
    rw [hidx]
    exact ⟨_, rfl, updateAt_length _ _ _⟩

/-- C10 (witness): a soft-deleted stored row with the matching identity
key is found and updated in place. -/
theorem tier1_ignores_soft_delete_witness :
    softDeletedLoc.deleted_at = some 5 ∧
    ((∃ loc, find_match simZero rawKeyed [softDeletedLoc] = some loc ∧
        loc.external_id = some rawKeyed.external_id ∧
        loc.data_source = some rawKeyed.data_source)
      ∧ ∀ la lo : ℚ, ∃ st',
          create_or_update simZero rawKeyed (some (la, lo)) [softDeletedLoc] = some st' ∧
          st'.length = [softDeletedLoc].length) :=
  ⟨rfl,
    tier1_ignores_soft_delete simZero rawKeyed [softDeletedLoc]
      (by decide) (by decide) ⟨softDeletedLoc, by simp, rfl, rfl⟩⟩

/-! ## C7: update-merge semantics -/

/-- C7 (counterexample): `rawFalsy` supplies the present value
`wheelchair_accessible = False`, yet after the matched update the stored
row still says `some true`: `raw or existing` keeps the old value for
every present-but-falsy incoming value, so the update is a conditional
field-by-field merge, not an unconditional overwrite. -/
theorem update_overwrite_counterexample :
    rawFalsy.wheelchair_accessible = some false ∧
    (create_or_update simZero rawFalsy (some (1, 2)) [storedTrue]).map
        (fun st => st.map (fun l => l.wheelchair_accessible)) =
      some [some true] := by
  constructor <;> rfl

/-- C7 (amended): when `create_or_update` finds a match it merges each
descriptive field as Python `new or old`: `name` and the coordinates
always take the incoming value; `description`, `organization_name`,
`phone`, `website` take the incoming value exactly when it is a
non-empty string, `languages_spoken` when it is a non-empty list, and
`wheelchair_accessible` when it is `True`; otherwise the stored value is
kept.  Address fields, borough, identity keys and `deleted_at` are
untouched. -/
theorem update_merge_semantics (sim : String → String → ℚ)
    (raw : RawServiceData) (store : List StoredLocation) (i : ℕ)
    (loc : StoredLocation) (la lo : ℚ)
    (hm : find_match_idx sim raw store = some i) (hl : store[i]? = some loc) :
    ∃ st' loc', create_or_update sim raw (some (la, lo)) store = some st' ∧
      st'.length = store.length ∧ st'[i]? = some loc' ∧
      loc'.name = raw.name ∧ loc'.latitude = some la ∧ loc'.longitude = some lo ∧
      (∀ s, raw.description = some s → s ≠ "" → loc'.description = some s) ∧
      ((raw.description = none ∨ raw.description = some "") →
        loc'.description = loc.description) ∧
      (∀ s, raw.organization_name = some s → s ≠ "" →
        loc'.organization_name = some s) ∧
      ((raw.organization_name = none ∨ raw.organization_name = some "") →
        loc'.organization_name = loc.organization_name) ∧
      (∀ s, raw.phone = some s → s ≠ "" → loc'.phone = some s) ∧
      ((raw.phone = none ∨ raw.phone = some "") → loc'.phone = loc.phone) ∧
      (∀ s, raw.website = some s → s ≠ "" → loc'.website = some s) ∧
      ((raw.website = none ∨ raw.website = some "") → loc'.website = loc.website) ∧
      (raw.wheelchair_accessible = some true →
        loc'.wheelchair_accessible = some true) ∧
      (raw.wheelchair_accessible ≠ some true →
        loc'.wheelchair_accessible = loc.wheelchair_accessible) ∧
      (∀ ls, raw.languages_spoken = some ls → ls ≠ [] →
        loc'.languages_spoken = some ls) ∧
      ((raw.languages_spoken = none ∨ raw.languages_spoken = some []) →
        loc'.languages_spoken = loc.languages_spoken) ∧
      loc'.street_address = loc.street_address ∧ loc'.borough = loc.borough ∧
      loc'.external_id = loc.external_id ∧ loc'.data_source = loc.data_source ∧
      loc'.deleted_at = loc.deleted_at := by
  refine ⟨updateAt store i (applyUpdate raw la lo), applyUpdate raw la lo loc, ?_, ?_, ?_, ?_⟩
  · unfold create_or_update
    rw [hm]
  · exact updateAt_length _ _ _
  · unfold updateAt
    rw [hl]
    have hlen : i < store.length := by
      by_contra hge
      rw [List.getElem?_eq_none (Nat.le_of_not_lt hge)] at hl
      exact Option.noConfusion hl
    exact List.getElem?_set_self hlen
  · refine ⟨rfl, rfl, rfl, ?_, ?_, ?_, ?_, ?_, ?_, ?_, ?_, ?_, ?_, ?_, ?_,
      rfl, rfl, rfl, rfl, rfl⟩
    · intro s hs hne
      simp [applyUpdate, pyOrStr, hs, hne]
    · rintro (hs | hs) <;> simp [applyUpdate, pyOrStr, hs]
    · intro s hs hne
      simp [applyUpdate, pyOrStr, hs, hne]
    · rintro (hs | hs) <;> simp [applyUpdate, pyOrStr, hs]
    · intro s hs hne
      simp [applyUpdate, pyOrStr, hs, hne]
    · rintro (hs | hs) <;> simp [applyUpdate, pyOrStr, hs]
    · intro s hs hne
      simp [applyUpdate, pyOrStr, hs, hne]
    · rintro (hs | hs) <;> simp [applyUpdate, pyOrStr, hs]
    · intro hs
      simp [applyUpdate, pyOrBool, hs]
    · intro hs
      cases hw : raw.wheelchair_accessible with
      | none => simp [applyUpdate, pyOrBool, hw]
      | some bv =>
        cases bv with
        | false => simp [applyUpdate, pyOrBool, hw]
        | true => exact absurd hw hs
    · intro ls hs hne
      simp [applyUpdate, pyOrList, hs, hne]
    · rintro (hs | hs) <;> simp [applyUpdate, pyOrList, hs]

/-- C7 (witness): the merge semantics applied to the concrete
falsy-accessibility record. -/
theorem update_merge_semantics_witness :
    find_match_idx simZero rawFalsy [storedTrue] = some 0 ∧
    (∃ st' loc', create_or_update simZero rawFalsy (some (1, 2)) [storedTrue] = some st' ∧
      st'.length = [storedTrue].length ∧ st'[0]? = some loc' ∧
      loc'.name = rawFalsy.name ∧ loc'.latitude = some 1 ∧ loc'.longitude = some 2 ∧
      (∀ s, rawFalsy.description = some s → s ≠ "" → loc'.description = some s) ∧
      ((rawFalsy.description = none ∨ rawFalsy.description = some "") →
        loc'.description = storedTrue.description) ∧
      (∀ s, rawFalsy.organization_name = some s → s ≠ "" →
        loc'.organization_name = some s) ∧
      ((rawFalsy.organization_name = none ∨ rawFalsy.organization_name = some "") →
        loc'.organization_name = storedTrue.organization_name) ∧
      (∀ s, rawFalsy.phone = some s → s ≠ "" → loc'.phone = some s) ∧
      ((rawFalsy.phone = none ∨ rawFalsy.phone = some "") →
        loc'.phone = storedTrue.phone) ∧
      (∀ s, rawFalsy.website = some s → s ≠ "" → loc'.website = some s) ∧
      ((rawFalsy.website = none ∨ rawFalsy.website = some "") →
        loc'.website = storedTrue.website) ∧
      (rawFalsy.wheelchair_accessible = some true →
        loc'.wheelchair_accessible = some true) ∧
      (rawFalsy.wheelchair_accessible ≠ some true →
        loc'.wheelchair_accessible = storedTrue.wheelchair_accessible) ∧
      (∀ ls, rawFalsy.languages_spoken = some ls → ls ≠ [] →
        loc'.languages_spoken = some ls) ∧
      ((rawFalsy.languages_spoken = none ∨ rawFalsy.languages_spoken = some []) →
        loc'.languages_spoken = storedTrue.languages_spoken) ∧
      loc'.street_address = storedTrue.street_address ∧
      loc'.borough = storedTrue.borough ∧
      loc'.external_id = storedTrue.external_id ∧
      loc'.data_source = storedTrue.data_source ∧
      loc'.deleted_at = storedTrue.deleted_at) :=
  ⟨rfl, update_merge_semantics simZero rawFalsy [storedTrue] 0 storedTrue 1 2 rfl rfl⟩

/-! ## C8: the `open_today` parameter mismatch -/

/-- C8: the router's call to `find_in_bounds` passes an `open_today`
keyword that the service method does not declare, so the call cannot
bind (a `TypeError` in Python) and no open-today filtering exists in
`find_in_bounds` at all. -/
theorem open_today_kwarg_not_accepted :
    ("open_today" ∈ router_in_bounds_kwargs ∧ "open_today" ∉ find_in_bounds_params) ∧
    kwargs_accepted find_in_bounds_params router_in_bounds_kwargs = false := by
  constructor
  · constructor
    · decide
    · decide
  · rfl

/-! ## C9: bounds validation -/

/-- C9: an inverted bounding box (`min_lat >= max_lat` or
`min_lng >= max_lng`) makes `get_services_in_bounds` fail with a
400 bounds-validation error before the query body runs; it never
returns an `ok` result, in particular never an empty list. -/
theorem in_bounds_invalid_rejected {α : Type}
    (body : ℚ → ℚ → ℚ → ℚ → Except (ℕ × String) (List α))
    (min_lat max_lat min_lng max_lng : ℚ)
    (hbad : min_lat ≥ max_lat ∨ min_lng ≥ max_lng) :
    (∃ msg, get_services_in_bounds_handler body min_lat max_lat min_lng max_lng =
      .error (400, msg))
    ∧ ∀ l : List α,
        get_services_in_bounds_handler body min_lat max_lat min_lng max_lng ≠ .ok l := by
  unfold get_services_in_bounds_handler
  by_cases h1 : min_lat ≥ max_lat
  · rw [if_pos h1]
    exact ⟨⟨_, rfl⟩, fun l h => Except.noConfusion h⟩
  · rw [if_neg h1]
    have h2 : min_lng ≥ max_lng := hbad.resolve_left h1
    rw [if_pos h2]
    exact ⟨⟨_, rfl⟩, fun l h => Except.noConfusion h⟩

/-! ## C4: ingestion idempotence -/

theorem updateAt_preserves_ids (raw : RawServiceData) (st : List StoredLocation)
    (i : ℕ) (f : StoredLocation → StoredLocation)
    (hf : ∀ x, (f x).external_id = x.external_id ∧ (f x).data_source = x.data_source) :
    hasIdMatch raw st → hasIdMatch raw (updateAt st i f) := by
  rintro ⟨loc, hmem, h1, h2⟩
  unfold updateAt
  cases hst : st[i]? with
  | none => exact ⟨loc, hmem, h1, h2⟩
  | some x =>
    show hasIdMatch raw (st.set i (f x))
    have hilen : i < st.length := by
      rcases List.getElem?_eq_some_iff.mp hst with ⟨h, -⟩
      exact h
    obtain ⟨j, hj, hjeq⟩ := List.getElem_of_mem hmem
    by_cases hij : i = j
    · subst hij
      have hx : x = loc := by
        have hh := hst
        rw [List.getElem?_eq_getElem hj, hjeq] at hh
        exact (Option.some.inj hh).symm
      subst hx
      have hmm : (st.set i (f x))[i]? = some (f x) :=
        List.getElem?_set_self (by simpa using hilen)
      exact ⟨f x, List.getElem?_mem hmm, by rw [(hf x).1, h1], by rw [(hf x).2, h2]⟩
    · have hmm : (st.set i (f x))[j]? = some loc := by
        rw [List.getElem?_set_ne hij, List.getElem?_eq_getElem hj, hjeq]
      exact ⟨loc, List.getElem?_mem hmm, h1, h2⟩

theorem processRecord_preserves_ids (sim : String → String → ℚ)
    (geo : RawServiceData → Option (ℚ × ℚ)) (raw r : RawServiceData)
    (st : List StoredLocation) :
    hasIdMatch raw st → hasIdMatch raw (processRecord sim geo st r) := by
  intro h
  unfold processRecord
  cases geo r with
  | none => exact h
  | some c =>
    obtain ⟨la, lo⟩ := c
    unfold create_or_update
    cases find_match_idx sim r st with
    | some i =>
      exact updateAt_preserves_ids raw st i _ (fun _ => ⟨rfl, rfl⟩) h
    | none =>
      obtain ⟨loc, hmem, h1, h2⟩ := h
      exact ⟨loc, List.mem_append_left _ hmem, h1, h2⟩

theorem runPipeline_preserves_ids (sim : String → String → ℚ)
    (geo : RawServiceData → Option (ℚ × ℚ)) (raw : RawServiceData)
    (stream : List RawServiceData) (st : List StoredLocation) :
    hasIdMatch raw st → hasIdMatch raw (runPipeline sim geo stream st) := by
  induction stream generalizing st with
  | nil => exact fun h => h
  | cons r rest ih =>
    intro h
    exact ih _ (processRecord_preserves_ids sim geo raw r st h)

theorem tier2_idx_of_borough_none (sim : String → String → ℚ)
    (raw : RawServiceData) (st : List StoredLocation) (hb : raw.borough = none) :
    tier2_idx sim raw st = none := by
  unfold tier2_idx
  rw [hb]

theorem processRecord_establishes_id (sim : String → String → ℚ)
    (geo : RawServiceData → Option (ℚ × ℚ)) (r : RawServiceData)
    (st : List StoredLocation) (c : ℚ × ℚ) (hge : geo r = some c)
    (hid : r.external_id ≠ "") (hds : r.data_source ≠ "") (hb : r.borough = none) :
    hasIdMatch r (processRecord sim geo st r) := by
  unfold processRecord
  rw [hge]
  obtain ⟨la, lo⟩ := c
  unfold create_or_update
  cases hm : find_match_idx sim r st with
  | none =>
    simp only [Option.getD_some]
    exact ⟨newLocation r la lo, by simp, rfl, rfl⟩
  | some i =>
    have htier1 : tier1_idx r st = some i := by
      unfold find_match_idx at hm
      cases h1 : tier1_idx r st with
      | some j => rw [h1] at hm; exact hm
      | none => rw [h1, tier2_idx_of_borough_none sim r st hb] at hm; exact Option.noConfusion hm
    have hfi : st.findIdx? (fun loc => loc.external_id == some r.external_id &&
        loc.data_source == some r.data_source) = some i := by
      unfold tier1_idx at htier1
      rwa [if_pos ⟨hid, hds⟩] at htier1
    have hp := List.findIdx?_of_eq_some hfi
    cases hget : st[i]? with
    | none => rw [hget] at hp; simp at hp
    | some loc =>
      rw [hget] at hp
      simp only [Bool.and_eq_true, beq_iff_eq] at hp
      simp only [Option.getD_some]
      unfold updateAt
      rw [hget]
      show hasIdMatch r (st.set i (applyUpdate r la lo loc))
      have hilen : i < st.length := by
        rcases List.getElem?_eq_some_iff.mp hget with ⟨h, -⟩
        exact h
      have hmm : (st.set i (applyUpdate r la lo loc))[i]? =
          some (applyUpdate r la lo loc) :=
        List.getElem?_set_self (by simpa using hilen)
      exact ⟨applyUpdate r la lo loc, List.getElem?_mem hmm, hp.1, hp.2⟩

theorem processRecord_length_of_match (sim : String → String → ℚ)
    (geo : RawServiceData → Option (ℚ × ℚ)) (r : RawServiceData)
    (st : List StoredLocation)
    (hid : r.external_id ≠ "") (hds : r.data_source ≠ "")
    (hmatch : hasIdMatch r st) :
    (processRecord sim geo st r).length = st.length := by
  unfold processRecord
  cases geo r with
  | none => rfl
  | some c =>
    obtain ⟨la, lo⟩ := c
    unfold create_or_update
    obtain ⟨w, hw, hw1, hw2⟩ := hmatch
    have hexb : ∃ x, x ∈ st ∧ (x.external_id == some r.external_id &&
        x.data_source == some r.data_source) = true :=
      ⟨w, hw, by simp [hw1, hw2]⟩
    have hfind := List.findIdx?_eq_some_of_exists hexb
    have hidx : find_match_idx sim r st = some (st.findIdx (fun loc =>
        loc.external_id == some r.external_id && loc.data_source == some r.data_source)) := by
      unfold find_match_idx tier1_idx
      rw [if_pos ⟨hid, hds⟩, hfind]
    rw [hidx]
    simp only [Option.getD_some]
    exact updateAt_length _ _ _

theorem runPipeline_no_growth (sim : String → String → ℚ)
    (geo : RawServiceData → Option (ℚ × ℚ)) (stream : List RawServiceData)
    (st : List StoredLocation)
    (hyp : ∀ r ∈ stream, r.external_id ≠ "" ∧ r.data_source ≠ "" ∧
      (geo r = none ∨ hasIdMatch r st)) :
    (runPipeline sim geo stream st).length = st.length := by
  induction stream generalizing st with
  | nil => rfl
  | cons r rest ih =>
    obtain ⟨hid, hds, hgeo⟩ := hyp r (List.mem_cons_self r rest)
    have hstep : (processRecord sim geo st r).length = st.length := by
      rcases hgeo with hge | hmatch
      · unfold processRecord
        rw [hge]
      · exact processRecord_length_of_match sim geo r st hid hds hmatch
    have hrest : ∀ x ∈ rest, x.external_id ≠ "" ∧ x.data_source ≠ "" ∧
        (geo x = none ∨ hasIdMatch x (processRecord sim geo st r)) := by
      intro x hx
      obtain ⟨h1, h2, h3⟩ := hyp x (List.mem_cons_of_mem r hx)
      refine ⟨h1, h2, ?_⟩
      rcases h3 with h3 | h3
      · exact Or.inl h3
      · exact Or.inr (processRecord_preserves_ids sim geo x r st h3)
    show (runPipeline sim geo rest (processRecord sim geo st r)).length = st.length
    rw [ih _ hrest, hstep]

theorem runPipeline_establishes_ids (sim : String → String → ℚ)
    (geo : RawServiceData → Option (ℚ × ℚ)) (stream : List RawServiceData)
    (st : List StoredLocation)
    (hyp : ∀ r ∈ stream, r.external_id ≠ "" ∧ r.data_source ≠ "" ∧ r.borough = none) :
    ∀ r ∈ stream, geo r = none ∨ hasIdMatch r (runPipeline sim geo stream st) := by
  induction stream generalizing st with
  | nil => intro r hr; exact absurd hr (List.not_mem_nil r)
  | cons r0 rest ih =>
    intro r hr
    rcases List.mem_cons.mp hr with rfl | hr'
    · cases hge : geo r with
      | none => exact Or.inl rfl
      | some c =>
        obtain ⟨hid, hds, hb⟩ := hyp r (List.mem_cons_self r rest)
        refine Or.inr ?_
        show hasIdMatch r (runPipeline sim geo rest (processRecord sim geo st r))
        exact runPipeline_preserves_ids sim geo r rest _
          (processRecord_establishes_id sim geo r st c hge hid hds hb)
    · have hyp' : ∀ x ∈ rest, x.external_id ≠ "" ∧ x.data_source ≠ "" ∧ x.borough = none :=
        fun x hx => hyp x (List.mem_cons_of_mem r0 hx)
      exact ih _ hyp' r hr'

/-- C4 (amended): over a stream in which every record carries a
non-empty `(externalId, dataSource)` identity and the fuzzy tier is not
engaged (no record has a borough), a second run of the ingestion
pipeline over the unchanged stream creates no new location rows:
tier-1 identity matching finds the row left by the first run and every
record is updated in place. -/
theorem ingestion_idempotent (sim : String → String → ℚ)
    (geo : RawServiceData → Option (ℚ × ℚ)) (stream : List RawServiceData)
    (init : List StoredLocation)
    (hyp : ∀ r ∈ stream, r.external_id ≠ "" ∧ r.data_source ≠ "" ∧ r.borough = none) :
    (runPipeline sim geo stream (runPipeline sim geo stream init)).length =
      (runPipeline sim geo stream init).length := by
  apply runPipeline_no_growth
  intro r hr
  obtain ⟨h1, h2, -⟩ := hyp r hr
  exact ⟨h1, h2, runPipeline_establishes_ids sim geo stream init hyp r hr⟩

/-- C4 (witness): one well-keyed record, run twice from the empty
store: the store size stays 1. -/
theorem ingestion_idempotent_witness :
    (∀ r ∈ [rawKeyed], r.external_id ≠ "" ∧ r.data_source ≠ "" ∧ r.borough = none) ∧
    (runPipeline simOne geoConst [rawKeyed]
        (runPipeline simOne geoConst [rawKeyed] [])).length =
      (runPipeline simOne geoConst [rawKeyed] []).length :=
  ⟨by decide, ingestion_idempotent simOne geoConst [rawKeyed] [] (by decide)⟩

/-- C4 (counterexample): a record with an empty `external_id` and no
borough skips both matching tiers (Python truthiness), so the second
run over the unchanged stream creates a duplicate row: one location
after the first run, two after the second. -/
theorem ingestion_idempotence_counterexample :
    (runPipeline simOne geoConst [rawNoKey] []).length = 1 ∧
    (runPipeline simOne geoConst [rawNoKey]
        (runPipeline simOne geoConst [rawNoKey] [])).length = 2 := by
  constructor <;> rfl

/-! ## Geospatial helper lemmas -/

theorem haversine_zero : haversine_distance 0 0 0 0 = 0 := by
  simp [haversine_distance, radians, atan2, Real.arctan_zero]

theorem atan2_same (x : ℝ) (hx : 0 < x) : atan2 x x = Real.pi / 4 := by
  unfold atan2
  rw [if_pos hx, div_self (ne_of_gt hx), Real.arctan_one]

theorem haversine_pole : haversine_distance 0 0 90 0 = 6371000 * (Real.pi / 2) := by
  have h90 : radians (90 - 0) = Real.pi / 2 := by unfold radians; ring
  have h90' : radians 90 = Real.pi / 2 := by unfold radians; ring
  have h0 : radians (0 - 0) = 0 := by norm_num [radians]
  have h0' : radians 0 = 0 := by norm_num [radians]
  have ha : Real.sin (radians (90 - 0) / 2) ^ 2 +
      Real.cos (radians 0) * Real.cos (radians 90) * Real.sin (radians (0 - 0) / 2) ^ 2
      = 1 / 2 := by
    rw [h90, h90', h0, h0']
    rw [show Real.pi / 2 / 2 = Real.pi / 4 by ring]
    rw [Real.sin_pi_div_four, Real.cos_pi_div_two, Real.cos_zero]
    rw [div_pow, Real.sq_sqrt (by norm_num : (0:ℝ) ≤ 2)]
    norm_num
  show 6371000 * (2 * atan2 (Real.sqrt (Real.sin (radians (90 - 0) / 2) ^ 2 +
    Real.cos (radians 0) * Real.cos (radians 90) * Real.sin (radians (0 - 0) / 2) ^ 2))
    (Real.sqrt (1 - (Real.sin (radians (90 - 0) / 2) ^ 2 +
    Real.cos (radians 0) * Real.cos (radians 90) * Real.sin (radians (0 - 0) / 2) ^ 2)))) = _
  rw [ha]
  rw [show (1:ℝ) - 1/2 = 1/2 by norm_num]
  rw [atan2_same _ (Real.sqrt_pos.mpr (by norm_num))]
  ring

theorem haversine_45_180 : haversine_distance 45 0 45 180 = 6371000 * (Real.pi / 2) := by
  have h45 : radians 45 = Real.pi / 4 := by unfold radians; ring
  have h180 : radians (180 - 0) = Real.pi := by unfold radians; ring
  have h0 : radians (45 - 45) = 0 := by norm_num [radians]
  have ha : Real.sin (radians (45 - 45) / 2) ^ 2 +
      Real.cos (radians 45) * Real.cos (radians 45) * Real.sin (radians (180 - 0) / 2) ^ 2
      = 1 / 2 := by
    rw [h45, h180, h0]
    rw [Real.cos_pi_div_four, Real.sin_pi_div_two]
    rw [show (0:ℝ) / 2 = 0 by norm_num, Real.sin_zero]
    rw [show √2 / 2 * (√2 / 2) = (√2)^2 / 4 by ring, Real.sq_sqrt (by norm_num : (0:ℝ) ≤ 2)]
    norm_num
  show 6371000 * (2 * atan2 (Real.sqrt (Real.sin (radians (45 - 45) / 2) ^ 2 +
    Real.cos (radians 45) * Real.cos (radians 45) * Real.sin (radians (180 - 0) / 2) ^ 2))
    (Real.sqrt (1 - (Real.sin (radians (45 - 45) / 2) ^ 2 +
    Real.cos (radians 45) * Real.cos (radians 45) * Real.sin (radians (180 - 0) / 2) ^ 2)))) = _
  rw [ha]
  rw [show (1:ℝ) - 1/2 = 1/2 by norm_num]
  rw [atan2_same _ (Real.sqrt_pos.mpr (by norm_num))]
  ring

theorem lon_offset_45_lt : lon_offset 10008 45 < 180 := by
  unfold lon_offset
  rw [show radians 45 = Real.pi / 4 by unfold radians; ring, Real.cos_pi_div_four]
  have hs2 : (1.4:ℝ) < Real.sqrt 2 := by
    rw [Real.lt_sqrt (by norm_num)]
    norm_num
  have hpos : (0:ℝ) < 111 * (Real.sqrt 2 / 2) := by positivity
  rw [div_lt_iff₀ hpos]
  nlinarith [hs2]

theorem hav_a_le_one (phi1 phi2 u : ℝ) (h1 : 0 ≤ Real.cos phi1) (h2 : 0 ≤ Real.cos phi2) :
    Real.sin ((phi2 - phi1) / 2) ^ 2 +
      Real.cos phi1 * Real.cos phi2 * Real.sin u ^ 2 ≤ 1 := by
  have hs : Real.sin ((phi2 - phi1) / 2) ^ 2 = 1 / 2 - Real.cos (phi2 - phi1) / 2 := by
    rw [Real.sin_sq_eq_half_sub, show 2 * ((phi2 - phi1) / 2) = phi2 - phi1 by ring]
  have hc : Real.cos (phi2 - phi1) =
      Real.cos phi2 * Real.cos phi1 + Real.sin phi2 * Real.sin phi1 := Real.cos_sub phi2 phi1
  have hadd : Real.cos (phi2 + phi1) =
      Real.cos phi2 * Real.cos phi1 - Real.sin phi2 * Real.sin phi1 := Real.cos_add phi2 phi1
  have hb1 : Real.cos (phi2 + phi1) ≤ 1 := Real.cos_le_one _
  have hu : Real.sin u ^ 2 ≤ 1 := Real.sin_sq_le_one u
  have hm : Real.cos phi1 * Real.cos phi2 * Real.sin u ^ 2 ≤
      Real.cos phi1 * Real.cos phi2 * 1 :=
    mul_le_mul_of_nonneg_left hu (mul_nonneg h1 h2)
  linarith [hs, hc, hadd, hb1, hm]

theorem atan2_sqrt_eq_arcsin (a : ℝ) (h0 : 0 ≤ a) (h1 : a ≤ 1) :
    atan2 (Real.sqrt a) (Real.sqrt (1 - a)) = Real.arcsin (Real.sqrt a) := by
  rcases lt_or_eq_of_le h1 with hlt | heq
  · have hx : 0 < Real.sqrt (1 - a) := Real.sqrt_pos.mpr (by linarith)
    unfold atan2
    rw [if_pos hx]
    have hmem : Real.sqrt a ∈ Set.Ioo (-(1:ℝ)) 1 := by
      constructor
      · have := Real.sqrt_nonneg a
        linarith
      · have h2 : Real.sqrt a < Real.sqrt 1 := Real.sqrt_lt_sqrt h0 hlt
        rwa [Real.sqrt_one] at h2
    rw [Real.arcsin_eq_arctan hmem, Real.sq_sqrt h0]
  · subst heq
    norm_num [atan2, Real.sqrt_one, Real.arcsin_one]

theorem arcsin_abs_sin (y : ℝ) (h1 : -(Real.pi / 2) ≤ y) (h2 : y ≤ Real.pi / 2) :
    Real.arcsin |Real.sin y| = |y| := by
  rcases le_or_lt 0 y with hy | hy
  · rw [abs_of_nonneg (Real.sin_nonneg_of_nonneg_of_le_pi hy
      (by linarith [Real.pi_pos]))]
    rw [Real.arcsin_sin h1 h2, abs_of_nonneg hy]
  · have hsn : 0 ≤ Real.sin (-y) :=
      Real.sin_nonneg_of_nonneg_of_le_pi (by linarith) (by linarith [Real.pi_pos])
    have habs : |Real.sin y| = Real.sin (-y) := by
      rw [Real.sin_neg, abs_of_nonpos (by rw [Real.sin_neg] at hsn; linarith)]
    rw [habs, Real.arcsin_sin (by linarith) (by linarith), abs_of_neg hy]

theorem radians_sub (a b : ℝ) : radians (a - b) = radians a - radians b := by
  unfold radians; ring

theorem abs_radians_le_pi_div_two (x : ℝ) (ha : -90 ≤ x) (hb : x ≤ 90) :
    |radians x| ≤ Real.pi / 2 := by
  unfold radians
  rw [abs_mul, abs_of_pos (by positivity : (0:ℝ) < Real.pi / 180)]
  have hx : |x| ≤ 90 := abs_le.mpr ⟨ha, hb⟩
  nlinarith [Real.pi_pos, abs_nonneg x]

theorem cos_radians_nonneg (x : ℝ) (ha : -90 ≤ x) (hb : x ≤ 90) :
    0 ≤ Real.cos (radians x) := by
  apply Real.cos_nonneg_of_mem_Icc
  have h := abs_radians_le_pi_div_two x ha hb
  rcases abs_le.mp h with ⟨h1, h2⟩
  exact ⟨h1, h2⟩

theorem haversine_ge_delta_lat (lat1 lon1 lat2 lon2 : ℝ)
    (h1a : -90 ≤ lat1) (h1b : lat1 ≤ 90) (h2a : -90 ≤ lat2) (h2b : lat2 ≤ 90) :
    6371000 * |radians (lat2 - lat1)| ≤ haversine_distance lat1 lon1 lat2 lon2 := by
  have hc1 : 0 ≤ Real.cos (radians lat1) := cos_radians_nonneg lat1 h1a h1b
  have hc2 : 0 ≤ Real.cos (radians lat2) := cos_radians_nonneg lat2 h2a h2b
  set a := Real.sin (radians (lat2 - lat1) / 2) ^ 2 +
    Real.cos (radians lat1) * Real.cos (radians lat2) *
      Real.sin (radians (lon2 - lon1) / 2) ^ 2 with ha_def
  have ha0 : 0 ≤ a :=
    add_nonneg (sq_nonneg _) (mul_nonneg (mul_nonneg hc1 hc2) (sq_nonneg _))
  have ha1 : a ≤ 1 := by
    rw [ha_def, radians_sub]
    exact hav_a_le_one (radians lat1) (radians lat2) (radians (lon2 - lon1) / 2) hc1 hc2
  have hshow : haversine_distance lat1 lon1 lat2 lon2 =
      6371000 * (2 * atan2 (Real.sqrt a) (Real.sqrt (1 - a))) := rfl
  rw [hshow, atan2_sqrt_eq_arcsin a ha0 ha1]
  have hhalf1 : -(Real.pi / 2) ≤ radians (lat2 - lat1) / 2 := by
    have h := abs_radians_le_pi_div_two lat1 h1a h1b
    have h2 := abs_radians_le_pi_div_two lat2 h2a h2b
    rw [radians_sub]
    rcases abs_le.mp h with ⟨hl1, hr1⟩
    rcases abs_le.mp h2 with ⟨hl2, hr2⟩
    linarith
  have hhalf2 : radians (lat2 - lat1) / 2 ≤ Real.pi / 2 := by
    have h := abs_radians_le_pi_div_two lat1 h1a h1b
    have h2 := abs_radians_le_pi_div_two lat2 h2a h2b
    rw [radians_sub]
    rcases abs_le.mp h with ⟨hl1, hr1⟩
    rcases abs_le.mp h2 with ⟨hl2, hr2⟩
    linarith
  have hsq : Real.sin (radians (lat2 - lat1) / 2) ^ 2 ≤ a := by
    rw [ha_def]
    exact le_add_of_nonneg_right (mul_nonneg (mul_nonneg hc1 hc2) (sq_nonneg _))
  have hsqrt : |Real.sin (radians (lat2 - lat1) / 2)| ≤ Real.sqrt a := by
    rw [← Real.sqrt_sq_eq_abs]
    exact Real.sqrt_le_sqrt hsq
  have harc : |radians (lat2 - lat1) / 2| ≤ Real.arcsin (Real.sqrt a) := by
    rw [← arcsin_abs_sin (radians (lat2 - lat1) / 2) hhalf1 hhalf2]
    exact Real.monotone_arcsin hsqrt
  have habs2 : |radians (lat2 - lat1)| = 2 * |radians (lat2 - lat1) / 2| := by
    rw [abs_div]
    rw [abs_of_pos (by norm_num : (0:ℝ) < 2)]
    ring
  rw [habs2]
  nlinarith [harc]

/-! ## C1: bounding-box prefilter -/

/-- C1 (counterexample): center `(45, 0)` with `radiusKm = 10008`; the
point `(45, 180)` is within the haversine radius (its distance is
`6371000 * π / 2 ≈ 10,007,543 m ≤ 10,008,000 m`) but its longitude 180
lies outside the computed longitude window `±10008/(111·cos 45°) ≈
±127.5°`, so the bounding box is not a superset of the circle. -/
theorem bounding_box_superset_counterexample :
    haversine_distance 45 0 45 180 ≤ 10008 * 1000 ∧
    ¬((0:ℝ) - lon_offset 10008 45 ≤ 180 ∧ (180:ℝ) ≤ 0 + lon_offset 10008 45) := by
  constructor
  · rw [haversine_45_180]
    nlinarith [Real.pi_lt_d6]
  · rintro ⟨-, habs⟩
    have h := lon_offset_45_lt
    linarith

/-- C1 (amended): the latitude half of the bounding box is always a
superset of the circle — for physical latitudes (both in [-90, 90]) and
any positive radius, every point within `radiusKm * 1000` meters
haversine distance of the center has latitude within
`lat ± radiusKm/111` — while the longitude half can exclude in-radius
points (see the counterexample). -/
theorem bounding_box_lat_superset (lat lon radius_km plat plon : ℝ)
    (hla : -90 ≤ lat) (hlb : lat ≤ 90) (hpa : -90 ≤ plat) (hpb : plat ≤ 90)
    (hr : 0 < radius_km)
    (hd : haversine_distance lat lon plat plon ≤ radius_km * 1000) :
    lat - lat_offset radius_km ≤ plat ∧ plat ≤ lat + lat_offset radius_km := by
  have hge := haversine_ge_delta_lat lat lon plat plon hla hlb hpa hpb
  have habs : 6371000 * |radians (plat - lat)| ≤ radius_km * 1000 := le_trans hge hd
  have h1 : |radians (plat - lat)| = |plat - lat| * (Real.pi / 180) := by
    unfold radians
    rw [abs_mul, abs_of_pos (by positivity : (0:ℝ) < Real.pi / 180)]
  rw [h1] at habs
  have hpi := Real.pi_gt_d6
  have h2 : |plat - lat| ≤ radius_km / 111 := by
    rw [le_div_iff₀ (by norm_num : (0:ℝ) < 111)]
    nlinarith [abs_nonneg (plat - lat)]
  rcases abs_le.mp h2 with ⟨hlo, hhi⟩
  unfold lat_offset
  constructor <;> linarith

/-- C1 (witness): the center itself, radius 1 km: distance 0 and
latitude inside the window. -/
theorem bounding_box_lat_superset_witness :
    ((-90:ℝ) ≤ 0 ∧ (0:ℝ) ≤ 90 ∧ (0:ℝ) < 1 ∧
      haversine_distance 0 0 0 0 ≤ 1 * 1000) ∧
    ((0:ℝ) - lat_offset 1 ≤ 0 ∧ (0:ℝ) ≤ 0 + lat_offset 1) :=
  ⟨⟨by norm_num, by norm_num, by norm_num, by rw [haversine_zero]; norm_num⟩,
    bounding_box_lat_superset 0 0 1 0 0 (by norm_num) (by norm_num) (by norm_num)
      (by norm_num) (by norm_num) (by rw [haversine_zero]; norm_num)⟩

/-! ## C5 and C6: the nearby query -/

theorem mem_nearby_filterMap (lat lon radius_km : ℝ) (src : List GeoLocation)
    (p : GeoLocation × ℝ)
    (hp : p ∈ src.filterMap (fun l => match l.latitude, l.longitude with
      | some la, some lo =>
        let d := haversine_distance lat lon la lo
        if d ≤ radius_km * 1000 then some (l, d) else none
      | _, _ => none)) :
    ∃ la lo, p.1.latitude = some la ∧ p.1.longitude = some lo ∧
      p.2 = haversine_distance lat lon la lo ∧ p.2 ≤ radius_km * 1000 := by
  rw [List.mem_filterMap] at hp
  obtain ⟨l, hl, hfl⟩ := hp
  cases hla : l.latitude with
  | none =>
    rw [hla] at hfl
    simp at hfl
  | some la =>
    cases hlo : l.longitude with
    | none =>
      rw [hla, hlo] at hfl
      simp at hfl
    | some lo =>
      rw [hla, hlo] at hfl
      dsimp only at hfl
      by_cases hd : haversine_distance lat lon la lo ≤ radius_km * 1000
      · rw [if_pos hd] at hfl
        injection hfl with hinj
        subst hinj
        exact ⟨la, lo, hla, hlo, rfl, hd⟩
      · rw [if_neg hd] at hfl
        exact absurd hfl (by simp)

/-- C5: `find_nearby` returns at most `min(limit, 500)` rows; every
returned row carries the exact haversine distance of its location from
the query center, which is at most `radius_km * 1000` meters; and the
returned list is non-decreasing in that distance. -/
theorem find_nearby_cap_radius_sorted (lat lon radius_km : ℝ)
    (service_types : List String) (store : List GeoLocation) (open_now : Bool)
    (limit weekday t : ℕ) :
    (find_nearby lat lon radius_km service_types store open_now limit weekday t).length ≤
      min limit 500
    ∧ (∀ p ∈ find_nearby lat lon radius_km service_types store open_now limit weekday t,
        ∃ la lo, p.1.latitude = some la ∧ p.1.longitude = some lo ∧
          p.2 = haversine_distance lat lon la lo ∧ p.2 ≤ radius_km * 1000)
    ∧ List.Pairwise distLe
        (find_nearby lat lon radius_km service_types store open_now limit weekday t) := by
  cases open_now with
  | false =>
    refine ⟨?_, ?_, ?_⟩
    · show ((List.insertionSort distLe _).take (min limit 500)).length ≤ min limit 500
      rw [List.length_take]
      exact min_le_left _ _
    · intro p hp
      have hp1 : p ∈ List.insertionSort distLe _ := (List.take_sublist _ _).subset hp
      have hp2 := (List.perm_insertionSort distLe _).subset hp1
      exact mem_nearby_filterMap lat lon radius_km _ p hp2
    · exact List.Pairwise.sublist (List.take_sublist _ _)
        (List.sorted_insertionSort distLe _)
  | true =>
    refine ⟨?_, ?_, ?_⟩
    · show (((List.insertionSort distLe _).take (min limit 500)).filter _).length ≤
        min limit 500
      refine le_trans (List.length_filter_le _ _) ?_
      rw [List.length_take]
      exact min_le_left _ _
    · intro p hp
      have hp0 : p ∈ (List.insertionSort distLe _).take (min limit 500) :=
        (List.mem_filter.mp hp).1
      have hp1 : p ∈ List.insertionSort distLe _ := (List.take_sublist _ _).subset hp0
      have hp2 := (List.perm_insertionSort distLe _).subset hp1
      exact mem_nearby_filterMap lat lon radius_km _ p hp2
    · exact List.Pairwise.sublist ((List.filter_sublist _).trans (List.take_sublist _ _))
        (List.sorted_insertionSort distLe _)

/-- C6 (amended): the open-now filter of `find_nearby` runs after the
distance sort *and* the truncation to `min(limit, 500)`: the open-now
query result equals the plain query result post-filtered by open-now,
and every returned row is open.  Consequently the query returns the
open subset of the `min(limit, 500)` closest in-radius candidates — not
the closest `limit` open candidates — and may return fewer than `limit`
open locations even when more open candidates lie within the radius. -/
theorem find_nearby_open_now_post_filter (lat lon radius_km : ℝ)
    (service_types : List String) (store : List GeoLocation)
    (limit weekday t : ℕ) :
    find_nearby lat lon radius_km service_types store true limit weekday t =
      (find_nearby lat lon radius_km service_types store false limit weekday t).filter
        (fun p => calculate_is_open_now p.1.operating_hours weekday t)
    ∧ ∀ p ∈ find_nearby lat lon radius_km service_types store true limit weekday t,
        calculate_is_open_now p.1.operating_hours weekday t = true :=
  ⟨rfl, fun _ hp => (List.mem_filter.mp hp).2⟩

/-- C6 (counterexample): center `(0,0)`, radius 10008 km,
`open_now = true`, `limit = 1`; the store holds the never-open `locA`
at the center and the always-open `locB` within the radius.  The
truncation to the limit keeps only closed `locA`, and the open-now
filter then empties the result — even though the open, non-deleted,
in-radius candidate `locB` exists, so the result is not "the closest 1
open locations". -/
theorem find_nearby_open_now_counterexample :
    find_nearby 0 0 10008 [] [locA, locB] true 1 6 0 = []
    ∧ locB ∈ [locA, locB] ∧ locB.deleted_at = none
    ∧ haversine_distance 0 0 90 0 ≤ 10008 * 1000
    ∧ calculate_is_open_now locB.operating_hours 6 0 = true := by
  refine ⟨?_, by simp, rfl, ?_, rfl⟩
  · have hboxA : inNearbyBox 0 0 10008 locA = true := by
      simp [inNearbyBox, locA, lat_offset, lon_offset, radians]
      norm_num
    have hboxB : inNearbyBox 0 0 10008 locB = true := by
      simp [inNearbyBox, locB, lat_offset, lon_offset, radians]
      norm_num
    have hd_A : haversine_distance 0 0 0 0 ≤ 10008 * 1000 := by
      rw [haversine_zero]
      norm_num
    have hd_B : haversine_distance 0 0 90 0 ≤ 10008 * 1000 := by
      rw [haversine_pole]
      nlinarith [Real.pi_lt_d6]
    have hle_AB : distLe (locA, haversine_distance 0 0 0 0)
        (locB, haversine_distance 0 0 90 0) := by
      show haversine_distance 0 0 0 0 ≤ haversine_distance 0 0 90 0
      rw [haversine_zero, haversine_pole]
      positivity
    have hopenA : calculate_is_open_now locA.operating_hours 6 0 = false := rfl
    show ((List.insertionSort distLe
        (([locA, locB].filter (inNearbyBox 0 0 10008)).filterMap
          (fun l => match l.latitude, l.longitude with
            | some la, some lo =>
              let d := haversine_distance 0 0 la lo
              if d ≤ 10008 * 1000 then some (l, d) else none
            | _, _ => none))).take (min 1 500)).filter
        (fun p => calculate_is_open_now p.1.operating_hours 6 0) = []
    rw [List.filter_cons, List.filter_cons, List.filter_nil, if_pos hboxA, if_pos hboxB]
    rw [List.filterMap_cons, List.filterMap_cons, List.filterMap_nil]
    rw [show locA.latitude = some 0 from rfl, show locA.longitude = some 0 from rfl]
    rw [show locB.latitude = some 90 from rfl, show locB.longitude = some 0 from rfl]
    dsimp only
    rw [if_pos hd_A, if_pos hd_B]
    rw [List.insertionSort, List.insertionSort, List.insertionSort,
      List.orderedInsert, List.orderedInsert, if_pos hle_AB]
    rw [show min 1 500 = 1 from rfl]
    simp only [List.take_succ_cons, List.take_zero]
    rw [List.filter_cons, if_neg (by rw [hopenA]; exact Bool.false_ne_true), List.filter_nil]
  · rw [haversine_pole]
    nlinarith [Real.pi_lt_d6]

/-- C9 (witness): a concrete inverted box is rejected with the 400
message and is not an `ok []`. -/
theorem in_bounds_invalid_rejected_witness :
    ((1 : ℚ) ≥ 0 ∨ (0 : ℚ) ≥ 1) ∧
    ((∃ msg, get_services_in_bounds_handler
        (fun _ _ _ _ => Except.ok ([] : List ℕ)) 1 0 0 1 = .error (400, msg))
      ∧ ∀ l : List ℕ, get_services_in_bounds_handler
          (fun _ _ _ _ => Except.ok ([] : List ℕ)) 1 0 0 1 ≠ .ok l) :=
  ⟨Or.inl (by norm_num),
    in_bounds_invalid_rejected (fun _ _ _ _ => Except.ok ([] : List ℕ)) 1 0 0 1
      (Or.inl (by norm_num))⟩

end Hope
